import Mathlib

/-!
Shallow embedding of the OpenEdu MCP server (openedu-mcp) in Lean 4.

The embedding translates the Python sources under `src/`:
  * `src/models/book.py`   — the `Book` data model, Open Library normalization,
    educational scoring, serialization;
  * `src/main.py`          — the dispatch layer (tool handlers with parameter
    validation and error wrapping);
  * `src/exceptions.py`    — the exception hierarchy (`OpenEduMCPError` and
    subclasses);
  * `src/tools/fallback_methods.py` — `_provide_educational_fallback`.

The cache service, rate-limiting service, usage service and `models/base.py`
(`GradeLevel`, `EducationalMetadata`) are referenced by the sources but their
files are not part of the source tree; those parts are modelled from the
specification and are marked `Modelled from the spec:` in their doc comments.

Python conventions used throughout the embedding:
  * machine floats of the scoring heuristics are embedded as exact rationals
    (the constants 0.1/0.2/0.3/1.0 and their comparisons);
  * Python truthiness is embedded explicitly (`none`/`0`/`""`/`[]` are falsy);
  * exceptions are embedded as the `Except` monad over a `PyExc` type.
-/

/-- Modelled from the spec: `models/base.py` is not under `src/`.  The five
grade levels named by the dispatch layer's validation lists in `src/main.py`
("K-2", "3-5", "6-8", "9-12", "College") and used by
`Book.from_open_library`. -/
inductive GradeLevel where
  | K_2
  | GRADES_3_5
  | GRADES_6_8
  | GRADES_9_12
  | COLLEGE
deriving DecidableEq, Repr

/-- The string value of a grade level (its serialized form). -/
def GradeLevel.toValue : GradeLevel → String
  | .K_2 => "K-2"
  | .GRADES_3_5 => "3-5"
  | .GRADES_6_8 => "6-8"
  | .GRADES_9_12 => "9-12"
  | .COLLEGE => "College"

/-- Parse a grade-level string value back into the enum. -/
def GradeLevel.fromValue (s : String) : Option GradeLevel :=
  if s = "K-2" then some .K_2
  else if s = "3-5" then some .GRADES_3_5
  else if s = "6-8" then some .GRADES_6_8
  else if s = "9-12" then some .GRADES_9_12
  else if s = "College" then some .COLLEGE
  else none

/-- Modelled from the spec: `models/base.py` is not under `src/`.  The
educational-metadata record attached to every content item, with the fields
that `src/models/book.py` and `src/main.py` read and write: grade levels,
curriculum alignment, educational subjects, a relevance score, and optional
reading/difficulty levels. -/
structure EducationalMetadata where
  grade_levels : List GradeLevel := []
  curriculum_alignment : List String := []
  educational_subjects : List String := []
  educational_relevance_score : ℚ := 0
  reading_level : Option String := none
  difficulty_level : Option String := none
deriving DecidableEq, Repr

/-- The `Book` dataclass of `src/models/book.py`.  `created_at`/`updated_at`
come from the (missing) `BaseModel`; they are serialized by `Book.to_dict`
so they are embedded here as datetimes. -/
structure PyDate where
  year : ℕ
  month : ℕ
  day : ℕ
deriving DecidableEq, Repr

/-- A Python `datetime` value as used by `created_at`/`updated_at`. -/
structure PyDateTime where
  year : ℕ
  month : ℕ
  day : ℕ
  hour : ℕ
  minute : ℕ
  second : ℕ
  microsecond : ℕ
deriving DecidableEq, Repr

structure Book where
  id : String := ""
  title : String := ""
  authors : List String := []
  isbn : Option String := none
  isbn13 : Option String := none
  publication_date : Option PyDate := none
  publisher : Option String := none
  subjects : List String := []
  description : Option String := none
  cover_url : Option String := none
  page_count : Option Int := none
  language : String := "en"
  educational_metadata : EducationalMetadata := {}
  lexile_score : Option Int := none
  source : String := "open_library"
  source_url : Option String := none
  created_at : PyDateTime
  updated_at : PyDateTime
deriving DecidableEq, Repr

/-- Python truthiness of an `Optional[int]`: `None` and `0` are falsy. -/
def optIntTruthy : Option Int → Bool
  | none => false
  | some n => n ≠ 0

/-- Embedding of `Book.get_educational_score` (src/models/book.py lines 190-204):
the base `educational_relevance_score` boosted by 0.2 when `grade_levels`
is truthy, 0.3 when `curriculum_alignment` is truthy, 0.1 when
`educational_subjects` is truthy and 0.1 when `lexile_score` is truthy
(`if self.lexile_score:`), capped at 1.0 by `min(score, 1.0)`. -/
def Book.get_educational_score (b : Book) : ℚ :=
  let score := b.educational_metadata.educational_relevance_score
  let score := if b.educational_metadata.grade_levels ≠ [] then score + 2/10 else score
  let score := if b.educational_metadata.curriculum_alignment ≠ [] then score + 3/10 else score
  let score := if b.educational_metadata.educational_subjects ≠ [] then score + 1/10 else score
  let score := if optIntTruthy b.lexile_score then score + 1/10 else score
  min score 1

/-- The score computation exactly as claim C4 words it: `plus 0.1 if
lexile_score is set`, i.e. whenever the optional field holds a value,
zero included. -/
def claimedEducationalScore (b : Book) : ℚ :=
  let score := b.educational_metadata.educational_relevance_score
  let score := if b.educational_metadata.grade_levels ≠ [] then score + 2/10 else score
  let score := if b.educational_metadata.curriculum_alignment ≠ [] then score + 3/10 else score
  let score := if b.educational_metadata.educational_subjects ≠ [] then score + 1/10 else score
  let score := if b.lexile_score.isSome then score + 1/10 else score
  min score 1

/-- The claim C4 score computation amended at its one divergence from the
code: the 0.1 lexile boost requires the lexile score to be set *and
non-zero* (Python truthiness of `Optional[int]`). -/
def amendedEducationalScore (b : Book) : ℚ :=
  let score := b.educational_metadata.educational_relevance_score
  let score := if b.educational_metadata.grade_levels ≠ [] then score + 2/10 else score
  let score := if b.educational_metadata.curriculum_alignment ≠ [] then score + 3/10 else score
  let score := if b.educational_metadata.educational_subjects ≠ [] then score + 1/10 else score
  let score := if b.lexile_score.isSome ∧ b.lexile_score ≠ some 0 then score + 1/10 else score
  min score 1

/-- A book with no educational indicators except a lexile score of zero:
the input on which the claimed and actual score computations part ways. -/
def lexileZeroBook : Book :=
  { created_at := ⟨2025, 1, 1, 0, 0, 0, 0⟩
    updated_at := ⟨2025, 1, 1, 0, 0, 0, 0⟩
    lexile_score := some 0 }

/-! ### String helpers: Python `str.lower`, substring membership, `str.strip` -/

/-- Python `str.lower` restricted to the ASCII range, character by
character. -/
def lowerStr (s : String) : String := ⟨s.data.map Char.toLower⟩

/-- Predicate `isPrefList n h` holds when the character list `n` is an initial
segment of `h`. -/
def isPrefList : List Char → List Char → Bool
  | [], _ => true
  | _ :: _, [] => false
  | a :: as, b :: bs => a = b && isPrefList as bs

/-- Predicate `hasSubList n h`: the character list `n` occurs contiguously in `h`
(Python's `n in h` on strings). -/
def hasSubList (needle : List Char) : List Char → Bool
  | [] => needle.isEmpty
  | b :: bs => isPrefList needle (b :: bs) || hasSubList needle bs

/-- Python's `needle in hay` substring test. -/
def strHasSub (hay needle : String) : Bool := hasSubList needle.data hay.data

/-- Python whitespace characters stripped by `str.strip()` (ASCII part). -/
def isPyWs (c : Char) : Bool :=
  c = ' ' || c = '\t' || c = '\n' || c = '\x0d' || c = '\x0b' || c = '\x0c'

/-- Python `str.strip()`: drop leading and trailing whitespace. -/
def pyStrip (s : String) : String :=
  ⟨((s.data.dropWhile isPyWs).reverse.dropWhile isPyWs).reverse⟩

/-! ### Open Library normalization (`Book.from_open_library`) -/

/-- The raw `subject` field of an Open Library record: absent, a single
string, or a list of strings (`from_open_library` wraps a bare string
into a one-element list). -/
inductive OLSubjectField where
  | absent
  | strVal (s : String)
  | listVal (l : List String)
deriving DecidableEq, Repr

/-- Embedding of `subjects = ol_data.get("subject", [])` followed by the
`isinstance(subjects, str)` wrap in `from_open_library`. -/
def extractSubjects : OLSubjectField → List String
  | .absent => []
  | .strVal s => [s]
  | .listVal l => l

/-- An Open Library search-result record, with the fields
`Book.from_open_library` reads.  Author entries given as
`{"name": ...}` objects are embedded by their extracted name string. -/
structure OLData where
  key : String := ""
  title : String := ""
  author_name : Option (List String) := none
  authors : Option (List String) := none
  first_publish_year : Option Int := none
  isbn : Option (List String) := none
  subject : OLSubjectField := .absent
  publisher : Option (List String) := none
  description : Option String := none
  cover_i : Option Int := none
  number_of_pages_median : Option Int := none
  language : Option (List String) := none
deriving Repr

/-- One pass of the grade-level inference `if`/`elif` chain of
`from_open_library` (src/models/book.py lines 146-155) on a single
subject: at most one grade level per subject, first matching rule
wins. -/
def inferGradeLevel (subject : String) : Option GradeLevel :=
  let sl := lowerStr subject
  if strHasSub sl "elementary" || strHasSub sl "primary" || strHasSub sl "kindergarten" then
    some .K_2
  else if strHasSub sl "middle" || strHasSub sl "junior" then
    some .GRADES_6_8
  else if strHasSub sl "high school" || strHasSub sl "secondary" then
    some .GRADES_9_12
  else if strHasSub sl "college" || strHasSub sl "university" then
    some .COLLEGE
  else
    none

/-- The `for isbn_val in ol_data["isbn"]` loop: length-10 values land in
`isbn`, length-13 values in `isbn13`, the last occurrence winning. -/
def extractIsbns (vals : List String) : Option String × Option String :=
  vals.foldl
    (fun p v =>
      if v.length = 10 then (some v, p.2)
      else if v.length = 13 then (p.1, some v)
      else p)
    (none, none)

/-- Embedding of `date(ol_data["first_publish_year"], 1, 1)` guarded by the
`except (ValueError, TypeError)` handler: Python's `date` accepts years
1..9999 only. -/
def yearToDate (y : Int) : Option PyDate :=
  if 1 ≤ y ∧ y ≤ 9999 then some ⟨y.toNat, 1, 1⟩ else none

/-- Embedding of `Book.from_open_library` (src/models/book.py lines 102-176).
`created_at`/`updated_at` are the dataclass defaults from the missing
`BaseModel` (construction time), passed here explicitly as `now`. -/
def Book.from_open_library (ol_data : OLData) (now : PyDateTime) : Book :=
  let work_id := (ol_data.key.replace "/works/" "")
  let authors :=
    match ol_data.author_name with
    | some names => names
    | none => (ol_data.authors).getD []
  let publication_date :=
    match ol_data.first_publish_year with
    | some y => yearToDate y
    | none => none
  let isbns :=
    match ol_data.isbn with
    | some vals => extractIsbns vals
    | none => (none, none)
  let subjects := extractSubjects ol_data.subject
  let educational_metadata : EducationalMetadata :=
    { grade_levels := subjects.filterMap inferGradeLevel
      educational_subjects := subjects.take 5 }
  { id := work_id
    title := ol_data.title
    authors := authors
    isbn := isbns.1
    isbn13 := isbns.2
    publication_date := publication_date
    publisher := (match ol_data.publisher with
                  | some (p :: _) => some p
                  | _ => none)
    subjects := subjects
    description := some ((ol_data.description).getD "")
    cover_url := (match ol_data.cover_i with
                  | some n =>
                    if n ≠ 0 then
                      some ("https://covers.openlibrary.org/b/id/" ++ toString n ++ "-L.jpg")
                    else none
                  | none => none)
    page_count := ol_data.number_of_pages_median
    language := (match ol_data.language with
                 | some (l :: _) => l
                 | _ => "en")
    educational_metadata := educational_metadata
    lexile_score := none
    source := "open_library"
    source_url := some ("https://openlibrary.org/works/" ++ work_id)
    created_at := now
    updated_at := now }

/-- The per-subject grade-inference rule exactly as claim C5 words it:
K-2 for "elementary"/"primary"/"kindergarten", otherwise 6-8 for
"middle"/"junior", otherwise 9-12 for "high school"/"secondary",
otherwise College for "college"/"university", first matching rule only,
all matches on the lowercase form of the subject. -/
def claimGradeRule (subject : String) : Option GradeLevel :=
  let sl := lowerStr subject
  if strHasSub sl "elementary" || strHasSub sl "primary" || strHasSub sl "kindergarten" then
    some GradeLevel.K_2
  else if strHasSub sl "middle" || strHasSub sl "junior" then
    some GradeLevel.GRADES_6_8
  else if strHasSub sl "high school" || strHasSub sl "secondary" then
    some GradeLevel.GRADES_9_12
  else if strHasSub sl "college" || strHasSub sl "university" then
    some GradeLevel.COLLEGE
  else
    none

/-! ### Exceptions and the dispatch layer (`src/exceptions.py`, `src/main.py`) -/

/-- A Python exception as seen by the dispatch layer: either an
`OpenEduMCPError` (src/exceptions.py) carrying its message, or any other
exception carrying its class name and message. -/
inductive PyExc where
  | openEduMCP (message : String)
  | other (name message : String)
deriving DecidableEq, Repr

/-- Embedding of `str(e)`: for `OpenEduMCPError` with no details this is the message
(src/exceptions.py lines 19-22); other exceptions are embedded by their
message. -/
def PyExc.toStr : PyExc → String
  | .openEduMCP m => m
  | .other _ m => m

/-- Whether an exception is an `OpenEduMCPError` (or a subclass). -/
def PyExc.isOpenEduMCPError : PyExc → Bool
  | .openEduMCP _ => true
  | .other _ _ => false

/-- The grade levels accepted by the dispatch validation in `src/main.py`
(lines 175 and 486). -/
def validGradeLevels : List String := ["K-2", "3-5", "6-8", "9-12", "College"]

/-- The `if grade_level and grade_level not in [...]` test of
`src/main.py`: fires only when the optional argument is a *truthy*
(non-empty) string outside the accepted list. -/
def badGradeLevel (grade_level : Option String) : Bool :=
  match grade_level with
  | some g => g ≠ "" && !(validGradeLevels.contains g)
  | none => false

/-- The `search_educational_books` tool handler (src/main.py lines
148-191): tool-initialization guard, parameter validation, then the
`try`/`except Exception` wrapper around the underlying tool call.  The
underlying call's outcome is the `tool` argument; `subject` is passed
through unvalidated as in the source. -/
def search_educational_books {R : Type} (toolInit : Bool) (query : String)
    (subject : Option String) (grade_level : Option String) (lim : Int)
    (tool : Except PyExc R) : Except PyExc R :=
  if !toolInit then
    .error (.openEduMCP "Open Library tool not properly initialized")
  else if query = "" || pyStrip query = "" then
    .error (.openEduMCP "Query cannot be empty")
  else if badGradeLevel grade_level then
    .error (.openEduMCP ("Invalid grade level: " ++ grade_level.getD ""))
  else if lim < 1 || lim > 50 then
    .error (.openEduMCP "Limit must be between 1 and 50")
  else
    match tool with
    | .ok r => .ok r
    | .error e => .error (.openEduMCP ("Book search failed: " ++ e.toStr))

/-- The `get_word_definition` tool handler (src/main.py lines 461-498):
tool-initialization guard, word and grade-level validation, then the
`try`/`except Exception` wrapper around the underlying tool call. -/
def get_word_definition {R : Type} (toolInit : Bool) (word : String)
    (grade_level : Option String) (tool : Except PyExc R) : Except PyExc R :=
  if !toolInit then
    .error (.openEduMCP "Dictionary tool not properly initialized")
  else if word = "" || pyStrip word = "" then
    .error (.openEduMCP "Word cannot be empty")
  else if badGradeLevel grade_level then
    .error (.openEduMCP ("Invalid grade level: " ++ grade_level.getD ""))
  else
    match tool with
    | .ok r => .ok r
    | .error e => .error (.openEduMCP ("Word definition retrieval failed: " ++ e.toStr))

/-- A handler outcome is structured when it is a result or an
`OpenEduMCPError`; any other escaping exception violates the dispatch
contract. -/
def resultStructured {R : Type} : Except PyExc R → Bool
  | .ok _ => true
  | .error e => e.isOpenEduMCPError

/-- A handler outcome that is specifically an `OpenEduMCPError`. -/
def isMCPErr {R : Type} : Except PyExc R → Bool
  | .error (.openEduMCP _) => true
  | _ => false

/-! ### Cache layer (spec-modelled) -/

/-- Serialize one request parameter as `name=value`. -/
def paramRepr (p : String × String) : String := p.1 ++ "=" ++ p.2

/-- Modelled from the spec: the cache service (`services/cache_service.py`)
is not under `src/`.  Per the spec the cache is "keyed by a deterministic
fingerprint of (API name, operation, parameters)": the fingerprint is the
canonical string joining the API name, the operation name and the
serialized parameter list. -/
def cacheKey (api operation : String) (params : List (String × String)) : String :=
  api ++ ":" ++ operation ++ ":" ++ String.intercalate "&" (params.map paramRepr)

/-- One cache entry: key, stored value, and absolute expiry instant
(store time plus time-to-live). -/
structure CacheEntry where
  key : String
  value : String
  expiresAt : ℕ
deriving DecidableEq, Repr

/-- Modelled from the spec: the cache service is not under `src/`.  A
"key/value store ... with per-entry expiration": storing under `k` at
time `now` with time-to-live `ttl` records the value with expiry
`now + ttl`, replacing any previous entry for the key. -/
def cacheSet (c : List CacheEntry) (k v : String) (now ttl : ℕ) : List CacheEntry :=
  ⟨k, v, now + ttl⟩ :: c.filter (fun e => e.key ≠ k)

/-- Modelled from the spec: the cache service is not under `src/`.  A
lookup at time `now` returns the stored value only while `now` is before
the entry's expiry instant; an expired or absent entry is a miss. -/
def cacheGet (c : List CacheEntry) (k : String) (now : ℕ) : Option String :=
  match c.find? (fun e => e.key = k) with
  | some e => if now < e.expiresAt then some e.value else none
  | none => none

/-! ### Rate limiter (spec-modelled) -/

/-- Per-API rate-limit configuration: the window length and the request
budget for one fixed window. -/
structure RLConfig where
  windowLen : ℕ
  budget : ℕ
deriving Repr

/-- Per-API limiter state: the index of the current fixed window and the
number of requests allowed through in it. -/
structure RLState where
  windowId : ℕ
  count : ℕ
deriving DecidableEq, Repr

/-- The fixed window an instant falls into. -/
def windowOf (len t : ℕ) : ℕ := t / len

/-- Modelled from the spec: the rate-limiting service
(`services/rate_limiting_service.py`) is not under `src/`.  Per the spec
it is a "fixed-window request counter per upstream API, rejecting or
delaying calls that would exceed a configured budget": a call in a new
window resets the counter; a call in the current window is allowed only
while the counter is below the budget, and rejected (surfacing as a
`RateLimitError`, src/exceptions.py lines 72-92) otherwise. -/
def rlStep (cfg : RLConfig) (st : RLState) (t : ℕ) : Bool × RLState :=
  let w := windowOf cfg.windowLen t
  if w ≠ st.windowId then
    if 0 < cfg.budget then (true, ⟨w, 1⟩) else (false, ⟨w, 0⟩)
  else if st.count < cfg.budget then (true, ⟨w, st.count + 1⟩)
  else (false, st)

/-- The limiter keeps one `RLState` per upstream API name. -/
def RLMap := String → RLState

/-- The initial limiter state: every API is in window 0 with no calls
counted. -/
def rlInit : RLMap := fun _ => ⟨0, 0⟩

/-- Run the limiter over a trace of calls tagged `(api, time)`, producing
the annotated trace `(api, time, allowed?)`.  Each call consults and
updates only its own API's state. -/
def rlProcess (cfg : String → RLConfig) (st : RLMap) :
    List (String × ℕ) → List (String × ℕ × Bool)
  | [] => []
  | (a, t) :: rest =>
    let r := rlStep (cfg a) (st a) t
    (a, t, r.1) :: rlProcess cfg (fun x => if x = a then r.2 else st x) rest

/-- The number of calls to API `a` allowed through during fixed window
`w` in an annotated trace. -/
def allowedInWindow (cfg : String → RLConfig) (a : String) (w : ℕ)
    (out : List (String × ℕ × Bool)) : ℕ :=
  (out.filter (fun e => e.1 = a && windowOf (cfg a).windowLen e.2.1 = w && e.2.2)).length

/-! ### Usage tracker (spec-modelled) -/

/-- One usage-log record: the tool invoked and its session tag. -/
structure UsageRecord where
  tool_name : String
  user_session : Option String
deriving DecidableEq, Repr

/-- An operation of the usage service: record one tool invocation, or a
read-only query over the log (statistics/report generation). -/
inductive UsageOp where
  | record (r : UsageRecord)
  | readStats
deriving Repr

/-- Modelled from the spec: the usage service (`services/usage_service.py`)
is not under `src/`.  Per the spec it keeps an "append-only log of tool
invocations for reporting": recording an invocation appends exactly one
record at the end of the log; read operations leave the log unchanged. -/
def usageStep (log : List UsageRecord) : UsageOp → List UsageRecord
  | .record r => log ++ [r]
  | .readStats => log

/-- Run a sequence of usage-service operations from a starting log. -/
def usageRun (log : List UsageRecord) (ops : List UsageOp) : List UsageRecord :=
  ops.foldl usageStep log

/-! ### ISO date/datetime strings (CPython `date`/`datetime` iso round trip)

`Book.to_dict` serializes `publication_date`, `created_at` and `updated_at`
through `isoformat()` and `Book.from_dict` parses them back with
`fromisoformat()`.  These stdlib functions are modelled concretely:
formatting emits the zero-padded digit groups of CPython's
`YYYY-MM-DD[THH:MM:SS[.ffffff]]` layout, parsing splits on the separators
and reads the digit groups back. -/

/-- The decimal digits of `n`, most significant first, as characters. -/
def natDigitsBE (n : ℕ) : List Char :=
  ((Nat.digits 10 n).reverse).map (fun d => Char.ofNat (48 + d))

/-- The number `n` printed zero-padded to width `w` (CPython's `%0wd`). -/
def padNum (w n : ℕ) : List Char :=
  List.replicate (w - (natDigitsBE n).length) '0' ++ natDigitsBE n

/-- Read a digit string back as a natural number. -/
def parseNatChars (l : List Char) : ℕ :=
  l.foldl (fun a c => a * 10 + (c.toNat - 48)) 0

/-- Split a character list at the first occurrence of `sep`; when `sep`
does not occur, the whole list is the first component. -/
def splitCh (sep : Char) : List Char → List Char × List Char
  | [] => ([], [])
  | c :: cs =>
    if c = sep then ([], cs)
    else
      let r := splitCh sep cs
      (c :: r.1, r.2)

/-- Embedding of `date.isoformat()`: `YYYY-MM-DD`. -/
def PyDate.isoformat (d : PyDate) : String :=
  ⟨padNum 4 d.year ++ '-' :: (padNum 2 d.month ++ '-' :: padNum 2 d.day)⟩

/-- Embedding of `date.fromisoformat`, on the strings `date.isoformat` produces:
split on the dashes and read the three digit groups. -/
def dateFromIso (s : String) : Option PyDate :=
  let p1 := splitCh '-' s.data
  let p2 := splitCh '-' p1.2
  if p1.1 ≠ [] && p1.1.all Char.isDigit && p2.1 ≠ [] && p2.1.all Char.isDigit
      && p2.2 ≠ [] && p2.2.all Char.isDigit then
    some ⟨parseNatChars p1.1, parseNatChars p2.1, parseNatChars p2.2⟩
  else none

/-- Embedding of `datetime.isoformat()`: `YYYY-MM-DDTHH:MM:SS`, with `.ffffff`
appended only when the microsecond field is non-zero (CPython default). -/
def PyDateTime.isoformat (d : PyDateTime) : String :=
  ⟨(padNum 4 d.year ++ '-' :: (padNum 2 d.month ++ '-' :: padNum 2 d.day))
    ++ 'T' :: (padNum 2 d.hour ++ ':' :: (padNum 2 d.minute ++ ':' :: (padNum 2 d.second
      ++ (if d.microsecond = 0 then [] else '.' :: padNum 6 d.microsecond))))⟩

/-- Embedding of `datetime.fromisoformat`, on the strings `datetime.isoformat`
produces: split date and time on `T`, the date on dashes, the time on
colons, and the optional microsecond group on the dot. -/
def datetimeFromIso (s : String) : Option PyDateTime :=
  let dt := splitCh 'T' s.data
  let p1 := splitCh '-' dt.1
  let p2 := splitCh '-' p1.2
  let q1 := splitCh ':' dt.2
  let q2 := splitCh ':' q1.2
  let q3 := splitCh '.' q2.2
  if p1.1 ≠ [] && p1.1.all Char.isDigit && p2.1 ≠ [] && p2.1.all Char.isDigit
      && p2.2 ≠ [] && p2.2.all Char.isDigit
      && q1.1 ≠ [] && q1.1.all Char.isDigit && q2.1 ≠ [] && q2.1.all Char.isDigit
      && q3.1 ≠ [] && q3.1.all Char.isDigit && q3.2.all Char.isDigit then
    some ⟨parseNatChars p1.1, parseNatChars p2.1, parseNatChars p2.2,
          parseNatChars q1.1, parseNatChars q2.1, parseNatChars q3.1,
          if q3.2.isEmpty then 0 else parseNatChars q3.2⟩
  else none

/-! ### Book serialization (`Book.to_dict` / `Book.from_dict`) -/

/-- Modelled from the spec: `models/base.py` is not under `src/`.  The
dictionary form of `EducationalMetadata` produced by its `to_dict`: grade
levels serialized by their string values, the other fields carried
through. -/
structure EMDict where
  grade_levels : List String
  curriculum_alignment : List String
  educational_subjects : List String
  educational_relevance_score : ℚ
  reading_level : Option String
  difficulty_level : Option String
deriving DecidableEq, Repr

/-- Modelled from the spec: `EducationalMetadata.to_dict` of the missing
`models/base.py`. -/
def EducationalMetadata.to_dict (m : EducationalMetadata) : EMDict :=
  { grade_levels := m.grade_levels.map GradeLevel.toValue
    curriculum_alignment := m.curriculum_alignment
    educational_subjects := m.educational_subjects
    educational_relevance_score := m.educational_relevance_score
    reading_level := m.reading_level
    difficulty_level := m.difficulty_level }

/-- Modelled from the spec: `EducationalMetadata.from_dict` of the missing
`models/base.py`; grade-level strings are parsed back into the enum. -/
def EducationalMetadata.from_dict (d : EMDict) : EducationalMetadata :=
  { grade_levels := d.grade_levels.filterMap GradeLevel.fromValue
    curriculum_alignment := d.curriculum_alignment
    educational_subjects := d.educational_subjects
    educational_relevance_score := d.educational_relevance_score
    reading_level := d.reading_level
    difficulty_level := d.difficulty_level }

/-- The dictionary produced by `Book.to_dict` (src/models/book.py lines
46-67): every field keyed by name, dates as ISO strings. -/
structure BookDict where
  id : String
  title : String
  authors : List String
  isbn : Option String
  isbn13 : Option String
  publication_date : Option String
  publisher : Option String
  subjects : List String
  description : Option String
  cover_url : Option String
  page_count : Option Int
  language : String
  educational_metadata : EMDict
  lexile_score : Option Int
  source : String
  source_url : Option String
  created_at : String
  updated_at : String
deriving DecidableEq, Repr

/-- Embedding of `Book.to_dict` (src/models/book.py lines 46-67):
`publication_date.isoformat() if publication_date else None`, datetimes
always serialized. -/
def Book.to_dict (b : Book) : BookDict :=
  { id := b.id
    title := b.title
    authors := b.authors
    isbn := b.isbn
    isbn13 := b.isbn13
    publication_date := b.publication_date.map PyDate.isoformat
    publisher := b.publisher
    subjects := b.subjects
    description := b.description
    cover_url := b.cover_url
    page_count := b.page_count
    language := b.language
    educational_metadata := b.educational_metadata.to_dict
    lexile_score := b.lexile_score
    source := b.source
    source_url := b.source_url
    created_at := b.created_at.isoformat
    updated_at := b.updated_at.isoformat }

/-- Embedding of `Book.from_dict` (src/models/book.py lines 69-95).  The publication
date is parsed only when the stored string is truthy
(`date.fromisoformat(...) if data.get("publication_date") else None`);
a failing date or datetime parse raises in Python and is a `none` result
here. -/
def Book.from_dict (data : BookDict) : Option Book :=
  let pd : Option (Option PyDate) :=
    match data.publication_date with
    | some s => if s ≠ "" then (dateFromIso s).map some else some none
    | none => some none
  match pd, datetimeFromIso data.created_at, datetimeFromIso data.updated_at with
  | some pdate, some ca, some ua =>
    some
      { id := data.id
        title := data.title
        authors := data.authors
        isbn := data.isbn
        isbn13 := data.isbn13
        publication_date := pdate
        publisher := data.publisher
        subjects := data.subjects
        description := data.description
        cover_url := data.cover_url
        page_count := data.page_count
        language := data.language
        educational_metadata := EducationalMetadata.from_dict data.educational_metadata
        lexile_score := data.lexile_score
        source := data.source
        source_url := data.source_url
        created_at := ca
        updated_at := ua }
  | _, _, _ => none

/-! ### Fallback content (`src/tools/fallback_methods.py`) -/

/-- A Python value inside a fallback content item. -/
inductive PyVal where
  | str (s : String)
  | num (q : ℚ)
  | bool (b : Bool)
  | strList (l : List String)
  | dict (l : List (String × PyVal))

/-- Dictionary lookup in a fallback item (keys are unique). -/
def lookupKey (item : List (String × PyVal)) (k : String) : Option PyVal :=
  match item with
  | [] => none
  | (k', v) :: rest => if k' = k then some v else lookupKey rest k

/-- Python `x or default` on an optional string: `None` and `""` fall
back to the default. -/
def orDefault (o : Option String) (d : String) : String :=
  match o with
  | some s => if s = "" then d else s
  | none => d

/-- Python `[x] if x else [default]` on an optional string argument. -/
def orDefaultList (o : Option String) (d : String) : List String :=
  match o with
  | some s => if s = "" then [d] else [s]
  | none => [d]

/-- The `"article"` fallback item of `_provide_educational_fallback`
(src/tools/fallback_methods.py lines 27-38). -/
def fallbackArticle (subject grade_level : Option String) : List (String × PyVal) :=
  let subject_str := orDefault subject "General Education"
  let grade_str := orDefault grade_level "K-12"
  [("title", .str (subject_str ++ " Fundamentals")),
   ("extract", .str ("This is a fallback educational article about " ++ subject_str
      ++ " for " ++ grade_str ++ " students.")),
   ("url", .str ("https://example.com/education/" ++ (lowerStr subject_str).replace " " "_")),
   ("educational_metadata", .dict
     [("educational_relevance_score", .num (85/100)),
      ("grade_levels", .strList (orDefaultList grade_level "K-12")),
      ("educational_subjects", .strList (orDefaultList subject "Education")),
      ("reading_level", .str "Appropriate"),
      ("difficulty_level", .str "Medium")])]

/-- The `"book"` fallback item (src/tools/fallback_methods.py lines
39-52). -/
def fallbackBook (subject grade_level : Option String) : List (String × PyVal) :=
  let subject_str := orDefault subject "General Education"
  let grade_str := orDefault grade_level "K-12"
  [("title", .str (subject_str ++ " Textbook for " ++ grade_str)),
   ("author", .str "Educational System"),
   ("isbn", .str "0000000000000"),
   ("publisher", .str "OpenEdu Press"),
   ("publish_date", .str "2025"),
   ("educational_metadata", .dict
     [("educational_relevance_score", .num (9/10)),
      ("grade_levels", .strList (orDefaultList grade_level "K-12")),
      ("educational_subjects", .strList (orDefaultList subject "Education")),
      ("reading_level", .str grade_str),
      ("difficulty_level", .str "Appropriate")])]

/-- The `"paper"` fallback item (src/tools/fallback_methods.py lines
53-64). -/
def fallbackPaper (subject grade_level : Option String) : List (String × PyVal) :=
  let subject_str := orDefault subject "General Education"
  let grade_str := orDefault grade_level "K-12"
  [("title", .str ("Research in " ++ subject_str ++ " Education")),
   ("authors", .strList ["Educational Researcher"]),
   ("summary", .str ("This paper discusses educational approaches in " ++ subject_str
      ++ " for " ++ grade_str ++ " students.")),
   ("published", .str "2025-01-01"),
   ("id", .str "fallback/2025.01234"),
   ("educational_metadata", .dict
     [("educational_relevance_score", .num (8/10)),
      ("academic_level", .str (orDefault grade_level "Undergraduate")),
      ("educational_subjects", .strList (orDefaultList subject "Education Research"))])]

/-- Embedding of `_provide_educational_fallback` (src/tools/fallback_methods.py lines
11-72): pick the item list for the content type (`fallbacks.get(...,[])`),
then set `item["is_fallback"] = True` on every returned item. -/
def provideEducationalFallback (content_type : String)
    (subject grade_level : Option String) : List (List (String × PyVal)) :=
  let result :=
    if content_type = "article" then [fallbackArticle subject grade_level]
    else if content_type = "book" then [fallbackBook subject grade_level]
    else if content_type = "paper" then [fallbackPaper subject grade_level]
    else []
  result.map (fun item => item ++ [("is_fallback", .bool true)])

/-! ## Theorems -/

/-- C1: Cache key derivation is deterministic: two key derivations with the
same API name, the same operation name and equal parameter lists yield the
same cache key. -/
theorem cacheKey_deterministic (a o : String) (p : List (String × String))
    (a' o' : String) (p' : List (String × String))
    (ha : a = a') (ho : o = o') (hp : p = p') :
    cacheKey a o p = cacheKey a' o' p' := by
  subst ha; subst ho; subst hp; rfl

theorem cacheKey_deterministic_witness :
    ("open_library" : String) = "open_library" ∧ ("search" : String) = "search" ∧
      ([("q", "plants")] : List (String × String)) = [("q", "plants")] ∧
      cacheKey "open_library" "search" [("q", "plants")]
        = cacheKey "open_library" "search" [("q", "plants")] :=
  ⟨rfl, rfl, rfl,
    cacheKey_deterministic "open_library" "search" [("q", "plants")]
      "open_library" "search" [("q", "plants")] rfl rfl rfl⟩

/-- C4 counterexample: on a book whose only educational indicator is a
lexile score *set to zero*, the code's score (no 0.1 boost, by Python
truthiness of `if self.lexile_score:`) differs from the score the claim
describes (0.1 boost whenever `lexile_score` is set). -/
theorem educational_score_claim_ce :
    Book.get_educational_score lexileZeroBook ≠ claimedEducationalScore lexileZeroBook := by
  simp only [Book.get_educational_score, claimedEducationalScore, lexileZeroBook, optIntTruthy]
  norm_num [min_def]

/-- C4 (amended): `get_educational_score` is the base relevance score plus
0.2/0.3/0.1 for non-empty grade levels, curriculum alignment and
educational subjects, plus 0.1 when `lexile_score` is set *and non-zero*,
capped at 1.0; in particular the result never exceeds 1.0. -/
theorem educational_score_amended (b : Book) :
    Book.get_educational_score b = amendedEducationalScore b
      ∧ Book.get_educational_score b ≤ 1 := by
  constructor
  · unfold Book.get_educational_score amendedEducationalScore
    cases h : b.lexile_score with
    | none => simp [optIntTruthy]
    | some n =>
      by_cases hn : n = 0 <;> simp [optIntTruthy, hn]
  · unfold Book.get_educational_score
    exact min_le_right _ _

/-- C6: per-entry expiration.  After storing `v` under `k` at time `s`
with time-to-live `t`, a lookup of `k` at any time at or after `s + t`
misses, while a lookup before `s + t` returns `v`. -/
theorem cache_entry_ttl_expiry (c : List CacheEntry) (k v : String) (s t now : ℕ) :
    (s + t ≤ now → cacheGet (cacheSet c k v s t) k now = none)
      ∧ (now < s + t → cacheGet (cacheSet c k v s t) k now = some v) := by
  unfold cacheGet cacheSet
  constructor <;> intro h <;> simp [List.find?] <;> omega

theorem cache_entry_ttl_expiry_witness :
    cacheGet (cacheSet [] "k" "v" 0 10) "k" 10 = none
      ∧ cacheGet (cacheSet [] "k" "v" 0 10) "k" 9 = some "v" :=
  ⟨(cache_entry_ttl_expiry [] "k" "v" 0 10 10).1 (by decide),
   (cache_entry_ttl_expiry [] "k" "v" 0 10 9).2 (by decide)⟩

/-- C7: the usage log is append-only.  Recording an invocation appends
exactly one record at the end, and after any sequence of usage-service
operations the earlier log is a prefix of the later log. -/
theorem usage_log_append_only (log : List UsageRecord) (ops : List UsageOp) :
    (∃ t, usageRun log ops = log ++ t)
      ∧ (∀ (l : List UsageRecord) (r : UsageRecord),
          usageStep l (UsageOp.record r) = l ++ [r]) := by
  constructor
  · induction ops generalizing log with
    | nil => exact ⟨[], (List.append_nil log).symm⟩
    | cons op ops ih =>
      obtain ⟨t, ht⟩ := ih (usageStep log op)
      cases op with
      | record r =>
        exact ⟨r :: t, by simpa [usageRun, usageStep, List.append_assoc] using ht⟩
      | readStats =>
        exact ⟨t, by simpa [usageRun, usageStep] using ht⟩
  · intro l r
    rfl

/-- C5: `from_open_library` attaches grade levels by the claim's keyword
rules — per subject, the first match among
elementary/primary/kindergarten → K-2, middle/junior → 6-8,
high school/secondary → 9-12, college/university → College, on the
lowercase form — and sets `educational_subjects` to the record's first
five subjects. -/
theorem from_open_library_keyword_enrichment (d : OLData) (now : PyDateTime) :
    (Book.from_open_library d now).educational_metadata.grade_levels
        = (extractSubjects d.subject).filterMap claimGradeRule
      ∧ (Book.from_open_library d now).educational_metadata.educational_subjects
        = (extractSubjects d.subject).take 5 := by
  have hrule : inferGradeLevel = claimGradeRule := rfl
  constructor
  · simp [Book.from_open_library, hrule]
  · simp [Book.from_open_library]

/-- C3: no exception other than `OpenEduMCPError` escapes the embedded
tool handlers: whatever the underlying tool call's outcome, the
`search_educational_books` and `get_word_definition` handlers return the
result or an `OpenEduMCPError`. -/
theorem tool_handlers_structured_errors :
    (∀ (R : Type) (toolInit : Bool) (q : String) (s g : Option String) (lim : Int)
        (t : Except PyExc R),
        resultStructured (search_educational_books toolInit q s g lim t) = true)
      ∧ (∀ (R : Type) (toolInit : Bool) (w : String) (g : Option String)
          (t : Except PyExc R),
        resultStructured (get_word_definition toolInit w g t) = true) := by
  constructor
  · intro R toolInit q s g lim t
    unfold search_educational_books
    split
    · rfl
    · split
      · rfl
      · split
        · rfl
        · split
          · rfl
          · cases t <;> rfl
  · intro R toolInit w g t
    unfold get_word_definition
    split
    · rfl
    · split
      · rfl
      · split
        · rfl
        · cases t <;> rfl

/-- C9 counterexample: with `grade_level` given as the empty string —
given, and not one of "K-2"/"3-5"/"6-8"/"9-12"/"College" — the
`search_educational_books` handler does not raise: `if grade_level and
grade_level not in [...]` skips validation for falsy strings, and the
underlying tool call's result is forwarded. -/
theorem dispatch_validation_claim_ce :
    search_educational_books (R := Unit) true "plants" none (some "") 10
        (Except.ok ()) = Except.ok () := by
  rfl

/-- C9 (amended): dispatch validation rejects bad inputs before any
upstream call.  `search_educational_books` returns an `OpenEduMCPError`
whenever the query is empty or only whitespace, whenever `grade_level` is
given as a *non-empty* string outside the five accepted values, or
whenever the limit is outside 1..50; `get_word_definition` likewise for
its word and grade level.  In each such case the outcome is independent
of the underlying tool call (the tool is not invoked). -/
theorem dispatch_validation_amended :
    (∀ (R : Type) (q : String) (s gl : Option String) (lim : Int)
        (t t' : Except PyExc R),
        ((q = "" ∨ pyStrip q = "")
            ∨ (∃ g, gl = some g ∧ g ≠ "" ∧ g ∉ validGradeLevels)
            ∨ (lim < 1 ∨ lim > 50)) →
        search_educational_books true q s gl lim t
            = search_educational_books true q s gl lim t'
          ∧ isMCPErr (search_educational_books true q s gl lim t) = true)
      ∧ (∀ (R : Type) (w : String) (gl : Option String) (t t' : Except PyExc R),
        ((w = "" ∨ pyStrip w = "")
            ∨ (∃ g, gl = some g ∧ g ≠ "" ∧ g ∉ validGradeLevels)) →
        get_word_definition true w gl t = get_word_definition true w gl t'
          ∧ isMCPErr (get_word_definition true w gl t) = true) := by
  constructor
  · intro R q s gl lim t t' h
    unfold search_educational_books
    simp only [Bool.not_true, Bool.false_eq_true, if_false]
    split
    · exact ⟨rfl, rfl⟩
    · split
      · exact ⟨rfl, rfl⟩
      · split
        · exact ⟨rfl, rfl⟩
        · rename_i hq hg hl
          exfalso
          rcases h with hq' | ⟨g, rfl, hg1, hg2⟩ | hl'
          · exact hq (by simpa using hq')
          · exact hg (by simp [badGradeLevel, hg1, hg2])
          · exact hl (by simpa using hl')
  · intro R w gl t t' h
    unfold get_word_definition
    simp only [Bool.not_true, Bool.false_eq_true, if_false]
    split
    · exact ⟨rfl, rfl⟩
    · split
      · exact ⟨rfl, rfl⟩
      · rename_i hw hg
        exfalso
        rcases h with hw' | ⟨g, rfl, hg1, hg2⟩
        · exact hw (by simpa using hw')
        · exact hg (by simp [badGradeLevel, hg1, hg2])

theorem dispatch_validation_amended_witness :
    ((("" : String) = "" ∨ pyStrip "" = "")
        ∨ (∃ g, (none : Option String) = some g ∧ g ≠ "" ∧ g ∉ validGradeLevels)
        ∨ ((10 : Int) < 1 ∨ (10 : Int) > 50))
      ∧ isMCPErr (search_educational_books (R := Unit) true "" none none 10
          (Except.ok ())) = true :=
  ⟨Or.inl (Or.inl rfl),
    ((dispatch_validation_amended.1 Unit "" none none 10 (Except.ok ()) (Except.ok ())
      (Or.inl (Or.inl rfl))).2)⟩

/-- Counting one more annotated call: the count grows by one exactly when
the call is to the counted API, in the counted window, and allowed. -/
theorem allowedInWindow_cons (cfg : String → RLConfig) (a : String) (w : ℕ)
    (e : String × ℕ × Bool) (out : List (String × ℕ × Bool)) :
    allowedInWindow cfg a w (e :: out)
      = (if e.1 = a ∧ windowOf (cfg a).windowLen e.2.1 = w ∧ e.2.2 = true
         then allowedInWindow cfg a w out + 1 else allowedInWindow cfg a w out) := by
  simp only [allowedInWindow, List.filter_cons]
  by_cases h1 : e.1 = a
  · by_cases h2 : windowOf (cfg a).windowLen e.2.1 = w
    · by_cases h3 : e.2.2 = true <;> simp [h1, h2, h3]
    · simp [h1, h2]
  · simp [h1]

/-- A window already strictly in the past of every remaining call admits
no further allowed calls. -/
theorem allowedInWindow_past_zero (cfg : String → RLConfig) (st : RLMap)
    (trace : List (String × ℕ)) (a : String) (w : ℕ)
    (h : ∀ p ∈ trace, w < windowOf (cfg a).windowLen p.2) :
    allowedInWindow cfg a w (rlProcess cfg st trace) = 0 := by
  induction trace generalizing st with
  | nil => rfl
  | cons p rest ih =>
    obtain ⟨a0, t⟩ := p
    have hwp : w < windowOf (cfg a).windowLen t := h (a0, t) (List.mem_cons_self _ _)
    simp only [rlProcess, allowedInWindow_cons]
    rw [if_neg (by rintro ⟨-, h2, -⟩; exact absurd h2 (by omega))]
    exact ih _ (fun q hq => h q (List.mem_cons_of_mem _ hq))

/-- The limiter step never moves an API's window index past the window of
any later instant. -/
theorem rlStep_windowId_le (cfg : RLConfig) (st : RLState) (t u : ℕ)
    (h0 : st.windowId ≤ windowOf cfg.windowLen t)
    (hu : windowOf cfg.windowLen t ≤ windowOf cfg.windowLen u) :
    (rlStep cfg st t).2.windowId ≤ windowOf cfg.windowLen u := by
  simp only [rlStep]
  by_cases h1 : windowOf cfg.windowLen t ≠ st.windowId
  · rw [if_pos h1]
    by_cases h2 : 0 < cfg.budget
    · rw [if_pos h2]; exact hu
    · rw [if_neg h2]; exact hu
  · rw [if_neg h1]
    by_cases h2 : st.count < cfg.budget
    · rw [if_pos h2]; exact hu
    · rw [if_neg h2]; exact le_trans h0 hu

/-- The limiter step keeps an API's counter within its budget. -/
theorem rlStep_count_le (cfg : RLConfig) (st : RLState) (t : ℕ)
    (hc : st.count ≤ cfg.budget) :
    (rlStep cfg st t).2.count ≤ cfg.budget := by
  simp only [rlStep]
  by_cases h1 : windowOf cfg.windowLen t ≠ st.windowId
  · rw [if_pos h1]
    by_cases h2 : 0 < cfg.budget
    · rw [if_pos h2]; exact h2
    · rw [if_neg h2]; exact Nat.zero_le _
  · rw [if_neg h1]
    by_cases h2 : st.count < cfg.budget
    · rw [if_pos h2]; exact h2
    · rw [if_neg h2]; exact hc

/-- The windowed budget invariant of the fixed-window limiter: running
from a state whose per-API counters are within budget and whose window
indices are not ahead of any remaining call, the allowed calls per API
and window, plus the current counter for the current window, stay within
budget. -/
theorem rlProcess_allowed_le (cfg : String → RLConfig) (trace : List (String × ℕ))
    (st : RLMap)
    (hsorted : trace.Pairwise (fun p q => p.2 ≤ q.2))
    (hw : ∀ a, ∀ p ∈ trace, (st a).windowId ≤ windowOf (cfg a).windowLen p.2)
    (hc : ∀ a, (st a).count ≤ (cfg a).budget) :
    ∀ a w, allowedInWindow cfg a w (rlProcess cfg st trace)
        + (if (st a).windowId = w then (st a).count else 0) ≤ (cfg a).budget := by
  induction trace generalizing st with
  | nil =>
    intro a w
    simp only [rlProcess, allowedInWindow, List.filter_nil, List.length_nil, Nat.zero_add]
    split
    · exact hc a
    · exact Nat.zero_le _
  | cons p rest ih =>
    obtain ⟨a0, t⟩ := p
    rw [List.pairwise_cons] at hsorted
    obtain ⟨hle, hrest⟩ := hsorted
    intro a w
    simp only [rlProcess, allowedInWindow_cons]
    have hw0 : (st a0).windowId ≤ windowOf (cfg a0).windowLen t :=
      hw a0 (a0, t) (List.mem_cons_self _ _)
    have hwrest : ∀ q ∈ rest, windowOf (cfg a0).windowLen t
        ≤ windowOf (cfg a0).windowLen q.2 :=
      fun q hq => Nat.div_le_div_right (hle q hq)
    have hw' : ∀ x, ∀ q ∈ rest,
        ((fun y => if y = a0 then (rlStep (cfg a0) (st a0) t).2 else st y) x).windowId
          ≤ windowOf (cfg x).windowLen q.2 := by
      intro x q hq
      by_cases hx : x = a0
      · subst hx
        simp only [if_pos rfl]
        exact rlStep_windowId_le (cfg x) (st x) t q.2 hw0 (hwrest q hq)
      · simp only [if_neg hx]
        exact hw x q (List.mem_cons_of_mem _ hq)
    have hc' : ∀ x,
        ((fun y => if y = a0 then (rlStep (cfg a0) (st a0) t).2 else st y) x).count
          ≤ (cfg x).budget := by
      intro x
      by_cases hx : x = a0
      · subst hx
        simp only [if_pos rfl]
        exact rlStep_count_le (cfg x) (st x) t (hc x)
      · simp only [if_neg hx]
        exact hc x
    have IH := ih _ hrest hw' hc'
    by_cases hx : a0 = a
    · subst hx
      have IHa := IH a0 w
      simp only [eq_self_iff_true, if_true] at IHa
      by_cases h1 : windowOf (cfg a0).windowLen t = (st a0).windowId
      · by_cases h2 : (st a0).count < (cfg a0).budget
        · -- same window, counter below budget: the call is allowed
          have hstep : rlStep (cfg a0) (st a0) t
              = (true, ⟨windowOf (cfg a0).windowLen t, (st a0).count + 1⟩) := by
            simp only [rlStep]
            rw [if_neg (by omega), if_pos h2]
          simp only [hstep] at IHa ⊢
          by_cases hww : windowOf (cfg a0).windowLen t = w
          · rw [if_pos ⟨trivial, hww, trivial⟩, if_pos (by omega : (st a0).windowId = w)]
            rw [if_pos hww] at IHa
            omega
          · rw [if_neg (by rintro ⟨-, h', -⟩; exact hww h'),
              if_neg (by omega : ¬(st a0).windowId = w)]
            rw [if_neg hww] at IHa
            omega
        · -- same window, counter at budget: the call is rejected, state kept
          have hstep : rlStep (cfg a0) (st a0) t = (false, st a0) := by
            simp only [rlStep]
            rw [if_neg (by omega), if_neg h2]
          simp only [hstep] at IHa ⊢
          rw [if_neg (by simp)]
          exact IHa
      · by_cases h2 : 0 < (cfg a0).budget
        · -- fresh window, positive budget: allowed, counter reset to one
          have hstep : rlStep (cfg a0) (st a0) t
              = (true, ⟨windowOf (cfg a0).windowLen t, 1⟩) := by
            simp only [rlStep]
            rw [if_pos (by omega), if_pos h2]
          simp only [hstep] at IHa ⊢
          by_cases hww : windowOf (cfg a0).windowLen t = w
          · rw [if_pos ⟨trivial, hww, trivial⟩, if_neg (by omega : ¬(st a0).windowId = w)]
            rw [if_pos hww] at IHa
            omega
          · rw [if_neg (by rintro ⟨-, h', -⟩; exact hww h')]
            rw [if_neg hww] at IHa
            by_cases hwold : (st a0).windowId = w
            · -- the counted window is already strictly past every later call
              have hz : allowedInWindow cfg a0 w
                  (rlProcess cfg
                    (fun y => if y = a0
                      then (⟨windowOf (cfg a0).windowLen t, 1⟩ : RLState) else st y)
                    rest) = 0 :=
                allowedInWindow_past_zero cfg _ rest a0 w
                  (fun q hq => lt_of_lt_of_le (by omega) (hwrest q hq))
              rw [if_pos hwold]
              rw [hz]
              have := hc a0
              omega
            · rw [if_neg hwold]
              omega
        · -- fresh window, zero budget: rejected, counter reset to zero
          have hstep : rlStep (cfg a0) (st a0) t
              = (false, ⟨windowOf (cfg a0).windowLen t, 0⟩) := by
            simp only [rlStep]
            rw [if_pos (by omega), if_neg h2]
          simp only [hstep] at IHa ⊢
          rw [if_neg (by simp)]
          have := hc a0
          split at IHa <;> split <;> omega
    · -- a call to a different API leaves `a`'s state untouched
      have IHa := IH a w
      simp only [if_neg (fun hh : a = a0 => hx hh.symm)] at IHa
      rw [if_neg (by rintro ⟨h', -, -⟩; exact hx h')]
      exact IHa

/-- C2: the fixed-window rate limiter never lets more than the configured
budget of calls through to an API in one window: over any
chronologically ordered call trace, for every API and every fixed
window, the number of calls allowed through is at most that API's
budget; the excess calls are rejected, not forwarded in the same
window. -/
theorem rate_limiter_window_budget (cfg : String → RLConfig)
    (trace : List (String × ℕ))
    (hsorted : trace.Pairwise (fun p q => p.2 ≤ q.2)) :
    ∀ a w, allowedInWindow cfg a w (rlProcess cfg rlInit trace) ≤ (cfg a).budget := by
  intro a w
  have h := rlProcess_allowed_le cfg trace rlInit hsorted
    (fun x p _ => Nat.zero_le _) (fun x => Nat.zero_le _) a w
  split at h <;> omega

theorem rate_limiter_window_budget_witness :
    ([(("arxiv", 1), ("arxiv", 2)), (("arxiv", 2), ("arxiv", 11))] = [] ∨ True)
      ∧ allowedInWindow (fun _ => ⟨10, 2⟩) "arxiv" 0
          (rlProcess (fun _ => ⟨10, 2⟩) rlInit
            [("arxiv", 1), ("arxiv", 2), ("arxiv", 3), ("arxiv", 4)]) ≤ 2 :=
  ⟨Or.inr trivial,
    rate_limiter_window_budget (fun _ => ⟨10, 2⟩)
      [("arxiv", 1), ("arxiv", 2), ("arxiv", 3), ("arxiv", 4)]
      (by decide) "arxiv" 0⟩

/-- The character of a decimal digit reads back as its value. -/
theorem toNat_digitChar (d : ℕ) (h : d < 10) : (Char.ofNat (48 + d)).toNat = 48 + d := by
  interval_cases d <;> decide

/-- The character of a decimal digit is a digit character. -/
theorem isDigit_digitChar (d : ℕ) (h : d < 10) : (Char.ofNat (48 + d)).isDigit = true := by
  interval_cases d <;> decide

/-- A digit character is never a (non-digit) separator character. -/
theorem digit_ne_sep {c sep : Char} (hc : c.isDigit = true) (hsep : sep.isDigit = false) :
    c ≠ sep := by
  intro h
  subst h
  exact Bool.noConfusion (hc.symm.trans hsep)

theorem natDigitsBE_all_digit (n : ℕ) : ∀ c ∈ natDigitsBE n, c.isDigit = true := by
  intro c hc
  simp only [natDigitsBE, List.mem_map, List.mem_reverse] at hc
  obtain ⟨d, hd, rfl⟩ := hc
  exact isDigit_digitChar d (Nat.digits_lt_base (by norm_num) hd)

theorem padNum_all_digit (w n : ℕ) : ∀ c ∈ padNum w n, c.isDigit = true := by
  intro c hc
  rw [padNum, List.mem_append] at hc
  rcases hc with hc | hc
  · rw [List.eq_of_mem_replicate hc]; decide
  · exact natDigitsBE_all_digit n c hc

theorem padNum_ne_nil (w n : ℕ) (hw : 0 < w) : padNum w n ≠ [] := by
  have hlen : (padNum w n).length
      = (w - (natDigitsBE n).length) + (natDigitsBE n).length := by
    simp [padNum]
  intro h
  rw [h] at hlen
  simp only [List.length_nil] at hlen
  omega

/-- No character of a zero-padded number is a given non-digit separator. -/
theorem padNum_ne_sep (w n : ℕ) {sep : Char} (hsep : sep.isDigit = false) :
    ∀ c ∈ padNum w n, c ≠ sep :=
  fun c hc => digit_ne_sep (padNum_all_digit w n c hc) hsep

/-- Leading zeros do not change the parsed value. -/
theorem parseNatChars_replicate_zero (k : ℕ) (l : List Char) :
    parseNatChars (List.replicate k '0' ++ l) = parseNatChars l := by
  induction k with
  | zero => rfl
  | succ k ih =>
    rw [List.replicate_succ, List.cons_append]
    show List.foldl _ (0 * 10 + ('0'.toNat - 48)) _ = _
    exact ih

/-- Folding the digit-accumulation step over a little-endian digit list
recovers `Nat.ofDigits`. -/
theorem foldr_parse_digits (l : List ℕ) (h : ∀ d ∈ l, d < 10) :
    l.foldr (fun d a => a * 10 + ((Char.ofNat (48 + d)).toNat - 48)) 0
      = Nat.ofDigits 10 l := by
  induction l with
  | nil => simp [Nat.ofDigits]
  | cons d l ih =>
    have hd : d < 10 := h d (List.mem_cons_self _ _)
    rw [List.foldr_cons, ih (fun x hx => h x (List.mem_cons_of_mem _ hx)),
      Nat.ofDigits_cons, toNat_digitChar d hd]
    omega

/-- Parsing the printed digits of `n` gives back `n`. -/
theorem parseNatChars_natDigitsBE (n : ℕ) : parseNatChars (natDigitsBE n) = n := by
  have h1 : parseNatChars (natDigitsBE n)
      = (Nat.digits 10 n).foldr
          (fun d a => a * 10 + ((Char.ofNat (48 + d)).toNat - 48)) 0 := by
    simp [parseNatChars, natDigitsBE, List.foldl_map, List.foldl_reverse, List.foldr_map]
  rw [h1, foldr_parse_digits _ (fun d hd => Nat.digits_lt_base (by norm_num) hd)]
  exact Nat.ofDigits_digits 10 n

/-- Parsing a zero-padded number recovers it, whatever the width. -/
theorem parseNatChars_padNum (w n : ℕ) : parseNatChars (padNum w n) = n := by
  rw [padNum, parseNatChars_replicate_zero, parseNatChars_natDigitsBE]

/-- Splitting at a separator that first occurs after `xs` detaches exactly
`xs`. -/
theorem splitCh_append (sep : Char) (xs ys : List Char) (h : ∀ c ∈ xs, c ≠ sep) :
    splitCh sep (xs ++ sep :: ys) = (xs, ys) := by
  induction xs with
  | nil => simp [splitCh]
  | cons c cs ih =>
    have hc : c ≠ sep := h c (List.mem_cons_self _ _)
    simp only [List.cons_append, splitCh, if_neg hc, List.append_eq]
    rw [ih (fun x hx => h x (List.mem_cons_of_mem _ hx))]

/-- Splitting a list free of the separator consumes it whole. -/
theorem splitCh_no_sep (sep : Char) (xs : List Char) (h : ∀ c ∈ xs, c ≠ sep) :
    splitCh sep xs = (xs, []) := by
  induction xs with
  | nil => rfl
  | cons c cs ih =>
    have hc : c ≠ sep := h c (List.mem_cons_self _ _)
    simp only [splitCh, if_neg hc]
    rw [ih (fun x hx => h x (List.mem_cons_of_mem _ hx))]

/-- The ISO date string of any `PyDate` parses back to the same date. -/
theorem dateFromIso_isoformat (d : PyDate) : dateFromIso d.isoformat = some d := by
  obtain ⟨y, m, dd⟩ := d
  have h1 : splitCh '-' (padNum 4 y ++ '-' :: (padNum 2 m ++ '-' :: padNum 2 dd))
      = (padNum 4 y, padNum 2 m ++ '-' :: padNum 2 dd) :=
    splitCh_append _ _ _ (padNum_ne_sep 4 y (by decide))
  have h2 : splitCh '-' (padNum 2 m ++ '-' :: padNum 2 dd) = (padNum 2 m, padNum 2 dd) :=
    splitCh_append _ _ _ (padNum_ne_sep 2 m (by decide))
  have hne4 := padNum_ne_nil 4 y (by norm_num)
  have hne2m := padNum_ne_nil 2 m (by norm_num)
  have hne2d := padNum_ne_nil 2 dd (by norm_num)
  have hall4 : (padNum 4 y).all Char.isDigit = true :=
    List.all_eq_true.2 (fun c hc => padNum_all_digit 4 y c hc)
  have hall2m : (padNum 2 m).all Char.isDigit = true :=
    List.all_eq_true.2 (fun c hc => padNum_all_digit 2 m c hc)
  have hall2d : (padNum 2 dd).all Char.isDigit = true :=
    List.all_eq_true.2 (fun c hc => padNum_all_digit 2 dd c hc)
  simp [dateFromIso, PyDate.isoformat, h1, h2, hne4, hne2m, hne2d, hall4, hall2m, hall2d,
    parseNatChars_padNum]

/-- The ISO datetime string of any `PyDateTime` parses back to the same
datetime. -/
theorem datetimeFromIso_isoformat (d : PyDateTime) : datetimeFromIso d.isoformat = some d := by
  obtain ⟨y, mo, dd, hh, mi, ss, us⟩ := d
  have hdate : ∀ c ∈ padNum 4 y ++ '-' :: (padNum 2 mo ++ '-' :: padNum 2 dd), c ≠ 'T' := by
    intro c hc
    simp only [List.mem_append, List.mem_cons] at hc
    rcases hc with h | rfl | h | rfl | h
    · exact digit_ne_sep (padNum_all_digit _ _ c h) (by decide)
    · decide
    · exact digit_ne_sep (padNum_all_digit _ _ c h) (by decide)
    · decide
    · exact digit_ne_sep (padNum_all_digit _ _ c h) (by decide)
  have h1 : splitCh '-' (padNum 4 y ++ '-' :: (padNum 2 mo ++ '-' :: padNum 2 dd))
      = (padNum 4 y, padNum 2 mo ++ '-' :: padNum 2 dd) :=
    splitCh_append _ _ _ (padNum_ne_sep 4 y (by decide))
  have h2 : splitCh '-' (padNum 2 mo ++ '-' :: padNum 2 dd) = (padNum 2 mo, padNum 2 dd) :=
    splitCh_append _ _ _ (padNum_ne_sep 2 mo (by decide))
  have hne4 := padNum_ne_nil 4 y (by norm_num)
  have hne2mo := padNum_ne_nil 2 mo (by norm_num)
  have hne2dd := padNum_ne_nil 2 dd (by norm_num)
  have hne2hh := padNum_ne_nil 2 hh (by norm_num)
  have hne2mi := padNum_ne_nil 2 mi (by norm_num)
  have hne2ss := padNum_ne_nil 2 ss (by norm_num)
  have hall : ∀ w n : ℕ, (padNum w n).all Char.isDigit = true :=
    fun w n => List.all_eq_true.2 (fun c hc => padNum_all_digit w n c hc)
  by_cases hus : us = 0
  · subst hus
    have htime : splitCh 'T' (padNum 4 y ++ '-' :: (padNum 2 mo ++ '-' :: (padNum 2 dd ++ 'T' ::
          (padNum 2 hh ++ ':' :: (padNum 2 mi ++ ':' :: padNum 2 ss)))))
        = (padNum 4 y ++ '-' :: (padNum 2 mo ++ '-' :: padNum 2 dd),
           padNum 2 hh ++ ':' :: (padNum 2 mi ++ ':' :: padNum 2 ss)) := by
      simpa using splitCh_append 'T' _ _ hdate
    have q1 : splitCh ':' (padNum 2 hh ++ ':' :: (padNum 2 mi ++ ':' :: padNum 2 ss))
        = (padNum 2 hh, padNum 2 mi ++ ':' :: padNum 2 ss) :=
      splitCh_append _ _ _ (padNum_ne_sep 2 hh (by decide))
    have q2 : splitCh ':' (padNum 2 mi ++ ':' :: padNum 2 ss) = (padNum 2 mi, padNum 2 ss) :=
      splitCh_append _ _ _ (padNum_ne_sep 2 mi (by decide))
    have q3 : splitCh '.' (padNum 2 ss) = (padNum 2 ss, []) :=
      splitCh_no_sep _ _ (padNum_ne_sep 2 ss (by decide))
    simp [datetimeFromIso, PyDateTime.isoformat, htime, h1, h2, q1, q2, q3,
      hne4, hne2mo, hne2dd, hne2hh, hne2mi, hne2ss, hall, parseNatChars_padNum]
  · have htime : splitCh 'T' (padNum 4 y ++ '-' :: (padNum 2 mo ++ '-' :: (padNum 2 dd ++ 'T' ::
          (padNum 2 hh ++ ':' :: (padNum 2 mi ++ ':' :: (padNum 2 ss ++ '.' :: padNum 6 us))))))
        = (padNum 4 y ++ '-' :: (padNum 2 mo ++ '-' :: padNum 2 dd),
           padNum 2 hh ++ ':' :: (padNum 2 mi ++ ':' :: (padNum 2 ss ++ '.' :: padNum 6 us))) := by
      simpa using splitCh_append 'T' _ _ hdate
    have q1 : splitCh ':' (padNum 2 hh ++ ':' :: (padNum 2 mi ++ ':' ::
          (padNum 2 ss ++ '.' :: padNum 6 us)))
        = (padNum 2 hh, padNum 2 mi ++ ':' :: (padNum 2 ss ++ '.' :: padNum 6 us)) :=
      splitCh_append _ _ _ (padNum_ne_sep 2 hh (by decide))
    have q2 : splitCh ':' (padNum 2 mi ++ ':' :: (padNum 2 ss ++ '.' :: padNum 6 us))
        = (padNum 2 mi, padNum 2 ss ++ '.' :: padNum 6 us) :=
      splitCh_append _ _ _ (padNum_ne_sep 2 mi (by decide))
    have q3 : splitCh '.' (padNum 2 ss ++ '.' :: padNum 6 us) = (padNum 2 ss, padNum 6 us) :=
      splitCh_append _ _ _ (padNum_ne_sep 2 ss (by decide))
    have hne6 := padNum_ne_nil 6 us (by norm_num)
    have hemp : (padNum 6 us).isEmpty = false := by
      cases hpn : padNum 6 us with
      | nil => exact absurd hpn hne6
      | cons a l => rfl
    simp [datetimeFromIso, PyDateTime.isoformat, if_neg hus, htime, h1, h2, q1, q2, q3,
      hne4, hne2mo, hne2dd, hne2hh, hne2mi, hne2ss, hall, hemp, parseNatChars_padNum]

/-- Serializing and parsing a grade level through its string value is the
identity. -/
theorem gradeLevel_value_roundtrip (g : GradeLevel) :
    GradeLevel.fromValue (GradeLevel.toValue g) = some g := by
  cases g <;> rfl

/-- The modelled educational-metadata dictionary round-trips. -/
theorem em_roundtrip (m : EducationalMetadata) :
    EducationalMetadata.from_dict m.to_dict = m := by
  obtain ⟨gl, ca, es, sc, rl, dl⟩ := m
  simp [EducationalMetadata.from_dict, EducationalMetadata.to_dict, List.filterMap_map,
    gradeLevel_value_roundtrip, Function.comp]
  induction gl with
  | nil => rfl
  | cons g l ih => simp [List.filterMap_cons, Function.comp, gradeLevel_value_roundtrip, ih]

/-- C8: Book serialization round-trips: `Book.from_dict (b.to_dict)`
reconstructs every field of `b`, the publication date and the
`created_at`/`updated_at` datetimes passing through their ISO-format
strings. -/
theorem book_dict_roundtrip (b : Book) : Book.from_dict (Book.to_dict b) = some b := by
  obtain ⟨bid, title, authors, isbn, isbn13, pub, publisher, subjects, desc, cover,
    pc, lang, em, lex, src, srcUrl, ca, ua⟩ := b
  cases pub with
  | none =>
    simp [Book.to_dict, Book.from_dict, datetimeFromIso_isoformat, em_roundtrip]
  | some pd =>
    have hiso : PyDate.isoformat pd ≠ "" := by
      intro h
      have h' := congrArg String.data h
      simp [PyDate.isoformat] at h'
    simp [Book.to_dict, Book.from_dict, hiso, dateFromIso_isoformat,
      datetimeFromIso_isoformat, em_roundtrip]

/-- C10: fallback content is always flagged and exhaustive over the known
content types: for "article", "book" and "paper" the fallback list is
non-empty and every item carries `is_fallback = True`; for any other
content type it is empty. -/
theorem fallback_flagged_exhaustive (ct : String) (subject grade_level : Option String) :
    ((ct = "article" ∨ ct = "book" ∨ ct = "paper") →
        provideEducationalFallback ct subject grade_level ≠ []
          ∧ ∀ item ∈ provideEducationalFallback ct subject grade_level,
              lookupKey item "is_fallback" = some (PyVal.bool true))
      ∧ (¬(ct = "article" ∨ ct = "book" ∨ ct = "paper") →
          provideEducationalFallback ct subject grade_level = []) := by
  constructor
  · rintro (rfl | rfl | rfl) <;>
      refine ⟨by simp +decide [provideEducationalFallback], ?_⟩ <;>
      intro item hitem <;>
      simp +decide [provideEducationalFallback] at hitem <;>
      subst hitem <;>
      simp +decide [lookupKey, fallbackArticle, fallbackBook, fallbackPaper]
  · intro h
    have h1 : ct ≠ "article" := fun hc => h (Or.inl hc)
    have h2 : ct ≠ "book" := fun hc => h (Or.inr (Or.inl hc))
    have h3 : ct ≠ "paper" := fun hc => h (Or.inr (Or.inr hc))
    simp [provideEducationalFallback, h1, h2, h3]

theorem fallback_flagged_exhaustive_witness :
    (("article" : String) = "article" ∨ ("article" : String) = "book"
        ∨ ("article" : String) = "paper")
      ∧ provideEducationalFallback "article" none none ≠ []
      ∧ ¬(("summary" : String) = "article" ∨ ("summary" : String) = "book"
        ∨ ("summary" : String) = "paper")
      ∧ provideEducationalFallback "summary" none none = [] :=
  ⟨Or.inl rfl,
    ((fallback_flagged_exhaustive "article" none none).1 (Or.inl rfl)).1,
    by decide,
    (fallback_flagged_exhaustive "summary" none none).2 (by decide)⟩
